import Mathlib

/-!
# altrepisode: the `stdvec_double` ALTREP binding

A shallow embedding of `src/stdvec_double.cpp`.

* Native memory is explicit: live `std::vector<double>` objects by address, the cells
  that hold doubles (addresses counted in units of `sizeof(double)`), and the list of
  `delete` expressions executed so far.
* The R heap is explicit: external-pointer objects (address plus registered C
  finalizers) and ALTREP objects (class, data1, data2), allocated from a counter.
* Every function of the source is a state-passing function into `Except Fault`;
  a read through a null or dead pointer is a `Fault`. Forming the reference `*ptr` reads
  nothing: `Get` returns the address, and the accessors read through it.
* `size_t` is a natural number below `2^64`, `R_xlen_t` a 64-bit two's complement
  integer; conversions between the two are the explicit `toU64` and `toI64`.
* The element type is a parameter `α`: the binding stores and moves doubles, it never
  computes with them.
-/

/-! ## Definitions -/

namespace Altrepisode

/-- Native addresses; `0` is the null pointer. -/
abbrev Addr := Nat

/-- Handles of R objects (`SEXP`). -/
abbrev SEXP := Nat

/-- Ways in which the program stops instead of returning. -/
inductive Fault where
  /-- read through a null `std::vector<double>*` -/
  | nullDeref
  /-- read through a pointer to a vector object that is not live -/
  | danglingDeref (p : Addr)
  /-- read of a cell of doubles that is not mapped -/
  | badRead (a : Int)
  /-- `delete` of an object that is not live -/
  | doubleFree (p : Addr)
  /-- R API error: the argument is not an external pointer -/
  | notExternalPtr (s : SEXP)
  /-- R API error: the argument is not an ALTREP object -/
  | notAltrep (s : SEXP)
  deriving DecidableEq, Repr

/-- The three words of a `std::vector<double>` that the source reads:
`data()` and `size()`. -/
structure StdVector where
  data : Addr
  size : Nat
  deriving DecidableEq, Repr

/-- C finalizers that the source registers. -/
inductive CFinalizer where
  | stdvec_double_Finalize
  deriving DecidableEq, Repr

/-- R objects the binding creates or reads. -/
inductive HostObj where
  /-- `EXTPTRSXP`: the wrapped address and the C finalizers registered on the object -/
  | extptr (addr : Addr) (hooks : List CFinalizer)
  /-- ALTREP object: class, data1, data2 -/
  | altrep (cls : SEXP) (data1 data2 : SEXP)
  deriving DecidableEq, Repr

/-- The whole state: native memory, R heap, console. -/
structure World (α : Type) where
  /-- live `std::vector<double>` objects, by address -/
  vectors : List (Addr × StdVector)
  /-- mapped cells of doubles, by address -/
  cells : List (Addr × α)
  /-- `delete` expressions executed, most recent first -/
  deletes : List Addr
  /-- next address handed out by `new` -/
  brk : Addr
  /-- R objects, by handle -/
  objects : List (SEXP × HostObj)
  /-- next handle handed out by the R allocator -/
  next : SEXP
  /-- the static `stdvec_double::class_t` -/
  class_t : SEXP
  /-- lines written by `Rprintf` (format strings only), most recent first -/
  console : List String

/-- `R_NilValue`. -/
def R_NilValue : SEXP := 0

/-- Conversion of an `R_xlen_t` to `size_t`. -/
def toU64 (i : Int) : Nat := (i % 2 ^ 64).toNat

/-- Conversion of a `size_t` to `R_xlen_t` (two's complement). -/
def toI64 (n : Nat) : Int :=
  if n % 2 ^ 64 < 2 ^ 63 then ((n % 2 ^ 64 : Nat) : Int) else ((n % 2 ^ 64 : Nat) : Int) - 2 ^ 64

/-- Subtraction of two `size_t` values. -/
def usub64 (a b : Nat) : Nat := (a % 2 ^ 64 + 2 ^ 64 - b % 2 ^ 64) % 2 ^ 64

variable {α : Type}

/-! ### Native memory and console -/

/-- `Rprintf`: appends the format string to the console. The formatted arguments are
not recorded; the reads they need are made by the caller. -/
def Rprintf (w : World α) (fmt : String) : World α :=
  { w with console := fmt :: w.console }

/-- Read of the vector object behind a `std::vector<double>*`. -/
def deref (w : World α) (p : Addr) : Except Fault StdVector :=
  if p = 0 then .error .nullDeref
  else match w.vectors.lookup p with
    | some v => .ok v
    | none => .error (.danglingDeref p)

/-- Read of the double at cell address `a`. -/
def readCell (w : World α) (a : Int) : Except Fault α :=
  if a < 0 then .error (.badRead a)
  else match w.cells.lookup a.toNat with
    | some x => .ok x
    | none => .error (.badRead a)

/-- Write of a double by native code that holds the buffer. -/
def poke (w : World α) (a : Addr) (x : α) : World α :=
  { w with cells := (a, x) :: w.cells }

/-- `new std::vector<double>{xs}`: the object sits at `brk`, its storage right after. -/
def new_vector (w : World α) (xs : List α) : Addr × World α :=
  let p := w.brk
  let b := w.brk + 1
  (p, { w with
          vectors := (p, { data := b, size := xs.length }) :: w.vectors
          cells := (xs.enum.map fun e => (b + e.1, e.2)) ++ w.cells
          brk := b + xs.length })

/-- The state after the live vector `v` at `p` is destroyed: its storage is unmapped,
the object is gone, and the deletion is recorded. -/
def release (w : World α) (p : Addr) (v : StdVector) : World α :=
  { w with
      vectors := w.vectors.filter fun e => e.1 != p
      cells := w.cells.filter fun c =>
        !(decide (v.data ≤ c.1) && decide (c.1 < v.data + v.size))
      deletes := p :: w.deletes }

/-- `delete ptr` on a non-null `std::vector<double>*`: the storage and the object are
released; a pointer to an object that is not live is a double free. -/
def delete (w : World α) (p : Addr) : Except Fault (World α) :=
  match w.vectors.lookup p with
  | some v => .ok (release w p v)
  | none => .error (.doubleFree p)

/-! ### The R API the binding calls -/

/-- `R_MakeExternalPtr(p, tag, prot)`: a fresh external pointer, no finalizer on it. -/
def R_MakeExternalPtr (w : World α) (p : Addr) (_tag _prot : SEXP) : SEXP × World α :=
  (w.next, { w with objects := (w.next, .extptr p []) :: w.objects, next := w.next + 1 })

/-- `R_ExternalPtrAddr(s)`. -/
def R_ExternalPtrAddr (w : World α) (s : SEXP) : Except Fault Addr :=
  match w.objects.lookup s with
  | some (.extptr p _) => .ok p
  | _ => .error (.notExternalPtr s)

/-- `R_RegisterCFinalizerEx(s, fun, onexit)`: one more finalizer on `s`. -/
def R_RegisterCFinalizerEx (w : World α) (s : SEXP) (f : CFinalizer) (_onexit : Bool) :
    Except Fault (World α) :=
  match w.objects.lookup s with
  | some (.extptr p hooks) => .ok { w with objects := (s, .extptr p (f :: hooks)) :: w.objects }
  | _ => .error (.notExternalPtr s)

/-- `R_new_altrep(cls, data1, data2)`: a fresh ALTREP object. -/
def R_new_altrep (w : World α) (cls data1 data2 : SEXP) : SEXP × World α :=
  (w.next, { w with objects := (w.next, .altrep cls data1 data2) :: w.objects, next := w.next + 1 })

/-- `R_altrep_data1(x)`. -/
def R_altrep_data1 (w : World α) (x : SEXP) : Except Fault SEXP :=
  match w.objects.lookup x with
  | some (.altrep _ d1 _) => .ok d1
  | _ => .error (.notAltrep x)

/-- The C finalizers registered on `s`. -/
def hooksOf (w : World α) (s : SEXP) : List CFinalizer :=
  match w.objects.lookup s with
  | some (.extptr _ hooks) => hooks
  | _ => []

namespace stdvec_double

/-! ### The methods of `struct stdvec_double` -/

/-- `stdvec_double::Make(data, owner)`. `PROTECT`/`UNPROTECT` only pin `xp` against the
collector while `R_new_altrep` allocates and have no counterpart here. -/
def Make (w : World α) (data : Addr) (owner : Bool) : Except Fault (SEXP × World α) := do
  let w := Rprintf w "[DEBUG] stdvec_double::Make called with data=%p, owner=%s\n"
  let w ← (if data ≠ 0 then do
      let v ← deref w data
      let w := Rprintf w "[DEBUG] Vector size: %zu\n"
      if v.size ≠ 0 then do
        let _ ← readCell w (v.data + 0)
        pure (Rprintf w "[DEBUG] First element: %f\n")
      else pure w
    else pure w)
  let (xp, w) := R_MakeExternalPtr w data R_NilValue R_NilValue
  let w := Rprintf w "[DEBUG] Created external pointer: %p\n"
  let w ← (if owner then do
      let w := Rprintf w "[DEBUG] Registering finalizer for owned vector\n"
      R_RegisterCFinalizerEx w xp .stdvec_double_Finalize true
    else pure w)
  let (res, w) := R_new_altrep w w.class_t xp R_NilValue
  let w := Rprintf w "[DEBUG] Created altrep object: %p\n"
  let w := Rprintf w "[DEBUG] stdvec_double::Make returning\n"
  pure (res, w)

/-- `stdvec_double::Finalize(xp)`. -/
def Finalize (w : World α) (xp : SEXP) : Except Fault (World α) := do
  let ptr ← R_ExternalPtrAddr w xp
  let w := Rprintf w "[DEBUG] stdvec_double::Finalize called for vector %p\n"
  if ptr ≠ 0 then do
    let _ ← deref w ptr
    let w := Rprintf w "[DEBUG] Deleting vector of size %zu\n"
    delete w ptr
  else
    pure (Rprintf w "[DEBUG] WARNING: Finalizer called with null pointer\n")

/-- `stdvec_double::Ptr(x)`. -/
def Ptr (w : World α) (x : SEXP) : Except Fault (Addr × World α) := do
  let data1 ← R_altrep_data1 w x
  let ptr ← R_ExternalPtrAddr w data1
  let w := Rprintf w "[DEBUG] stdvec_double::Ptr returning %p\n"
  pure (ptr, w)

/-- `stdvec_double::Get(vec)`: the reference `*ptr`, given as the address it refers to.
On a null pointer the function writes one more line and still returns the reference; it
reads nothing through it and has no abort or error call. -/
def Get (w : World α) (vec : SEXP) : Except Fault (Addr × World α) := do
  let w := Rprintf w "[DEBUG] stdvec_double::Get called\n"
  let (ptr, w) ← Ptr w vec
  let w := if ptr = 0 then Rprintf w "[DEBUG] ERROR: Get() received null pointer!\n" else w
  pure (ptr, w)

/-- `stdvec_double::Length(vec)`: `size()` is the read through the reference. -/
def Length (w : World α) (vec : SEXP) : Except Fault (Int × World α) := do
  let w := Rprintf w "[DEBUG] stdvec_double::Length called\n"
  let (ref, w) ← Get w vec
  let v ← deref w ref
  let len := toI64 v.size
  let w := Rprintf w "[DEBUG] Length returning: %ld\n"
  pure (len, w)

/-- `stdvec_double::Inspect(x, pre, deep, pvec, inspect_subtree)`. -/
def Inspect (w : World α) (x : SEXP) (_pre _deep _pvec : Int)
    (_inspect_subtree : SEXP → Int → Int → Int → Unit) : Except Fault (Bool × World α) := do
  let w := Rprintf w "[DEBUG] stdvec_double::Inspect called\n"
  let (_, w) ← Length w x
  let (_, w) ← Ptr w x
  let w := Rprintf w "std::vector<double> (len=%ld, ptr=%p)\n"
  pure (true, w)

/-- `stdvec_double::Dataptr_or_null(vec)`: `data()` is the read through the
reference. -/
def Dataptr_or_null (w : World α) (vec : SEXP) : Except Fault (Addr × World α) := do
  let w := Rprintf w "[DEBUG] stdvec_double::Dataptr_or_null called\n"
  let (ref, w) ← Get w vec
  let v ← deref w ref
  let ptr := v.data
  let w := Rprintf w "[DEBUG] Dataptr_or_null returning: %p\n"
  pure (ptr, w)

/-- `stdvec_double::Dataptr(vec, writeable)`: `data()` is the read through the
reference. -/
def Dataptr (w : World α) (vec : SEXP) (_writeable : Bool) : Except Fault (Addr × World α) := do
  let w := Rprintf w "[DEBUG] stdvec_double::Dataptr called (writeable=%s)\n"
  let (ref, w) ← Get w vec
  let v ← deref w ref
  let ptr := v.data
  let w := Rprintf w "[DEBUG] Dataptr returning: %p\n"
  pure (ptr, w)

/-- `stdvec_double::real_Elt(vec, i)`: `Get(vec)[i]` reads the cell `data() + size_t(i)`,
without a bounds check: an index outside the buffer reads whatever is mapped there, and
faults if nothing is. -/
def real_Elt (w : World α) (vec : SEXP) (i : Int) : Except Fault (α × World α) := do
  let w := Rprintf w "[DEBUG] stdvec_double::real_Elt called with index %ld\n"
  let (ref, w) ← Get w vec
  let v ← deref w ref
  let val ← readCell w (v.data + toU64 i)
  let w := Rprintf w "[DEBUG] real_Elt[%ld] = %f\n"
  pure (val, w)

/-- `stdvec_double::Get_region(vec, start, size, out)`. The parameter `out` is passed by
value; the assignment to it changes the local copy only, and nothing is stored through
it. The vector object is first read through the reference at `v.data()`; `v.size()`
reads the same object. -/
def Get_region (w : World α) (vec : SEXP) (start size : Int) (_out : Addr) :
    Except Fault (Int × World α) := do
  let w := Rprintf w "[DEBUG] stdvec_double::Get_region called (start=%ld, size=%ld)\n"
  let (ref, w) ← Get w vec
  let v ← deref w ref
  let _out : Int := v.data + start
  let len : Int := toI64 (usub64 v.size (toU64 start))
  let result : Int := if len > size then size else len
  let w := Rprintf w "[DEBUG] Get_region: vector_size=%zu, remaining=%ld, returning=%ld\n"
  pure (result, w)

end stdvec_double

/-! ### The collector -/

/-- The loop of `doubles()` that prints every element: `k` iterations are left and `i`
is the index; the loop starts with `k = v->size()` and `i = 0`. -/
def doubles_loop (w : World α) (v : Addr) : Nat → Nat → Except Fault (World α)
  | 0, _ => .ok w
  | k + 1, i => do
    let hdr ← deref w v
    let _ ← readCell w (hdr.data + i)
    doubles_loop (Rprintf w "[DEBUG] v[%zu] = %f\n") v k (i + 1)

/-- `doubles()`, with the five literals `-2.0, -1.0, 0.0, 1.0, 2.0` written as the
integers they are. -/
def doubles (w : World Int) : Except Fault (SEXP × World Int) := do
  let w := Rprintf w "[DEBUG] doubles() function called\n"
  let (v, w) := new_vector w [-2, -1, 0, 1, 2]
  let hdr ← deref w v
  let w := Rprintf w "[DEBUG] Created new vector at %p with %zu elements\n"
  let w ← doubles_loop w v hdr.size 0
  let (result, w) ← stdvec_double.Make w v true
  let w := Rprintf w "[DEBUG] doubles() returning altrep object\n"
  pure (result, w)

/-! ### Vocabulary of the statements and sample states -/

/-- A state before any call: nothing allocated, `R_NilValue` and the class object
are the only handles taken. -/
def World.init (α : Type) : World α :=
  { vectors := [], cells := [], deletes := [], brk := 1, objects := [], next := 2,
    class_t := 1, console := [] }

/-- `r` returns the value `b` (in some final state). -/
def Returns {β : Type} (r : Except Fault (β × World α)) (b : β) : Prop :=
  ∃ w, r = .ok (b, w)

/-- The value a call returns, if it returns. -/
def value? {β : Type} : Except Fault (β × World α) → Option β
  | .ok (b, _) => some b
  | .error _ => none

/-- The ALTREP object `x` resolves to the native address `p`: its data1 is an external
pointer that holds `p`. -/
def Resolves (w : World α) (x : SEXP) (p : Addr) : Prop :=
  ∃ d1, R_altrep_data1 w x = .ok d1 ∧ R_ExternalPtrAddr w d1 = .ok p

/-- Same native memory and same R heap; only the console may differ. -/
def Frame (w w' : World α) : Prop :=
  ∃ c, w' = { w with console := c }

namespace stdvec_double

/-- The objects that `Make` adds to the R heap, newest first. -/
def Make_objects (w : World α) (data : Addr) (owner : Bool) : List (SEXP × HostObj) :=
  (w.next + 1, .altrep w.class_t w.next R_NilValue) ::
    ((if owner then [(w.next, HostObj.extptr data [.stdvec_double_Finalize])] else []) ++
      [(w.next, .extptr data [])])

/-- What `Make` needs of its argument: null, or a live vector whose first cell (if there
is one) can be read. -/
def Wrappable (w : World α) (data : Addr) : Prop :=
  data = 0 ∨ ∃ v, w.vectors.lookup data = some v ∧
    (v.size ≠ 0 → ∃ c, w.cells.lookup v.data = some c)

end stdvec_double

/-- The state after `new std::vector<double>{-2, -1, 0, 1, 2}` in the initial state: the
vector object is at address `1`, its storage at `2 .. 6`. -/
def bufWorld : World Int := (new_vector (World.init Int) [-2, -1, 0, 1, 2]).2

/-- The state after `doubles()` in the initial state. The ALTREP object is `3`, its
external pointer `2`, the vector object is at address `1`, its storage at `2 .. 6`. -/
def demoWorld : World Int :=
  match doubles (World.init Int) with
  | .ok (_, w) => w
  | .error _ => World.init Int

/-- The state `demoWorld` with a caller buffer of ten doubles, all `9.0`, at `100 .. 109`. -/
def callerWorld : World Int :=
  { demoWorld with cells := demoWorld.cells ++ (List.range 10).map fun i => (100 + i, 9) }

/-- The pointer `d` points to a live vector of `xs.length` doubles whose cells hold
`xs`. -/
def Holds (w : World α) (d : Addr) (xs : List α) : Prop :=
  d ≠ 0 ∧ ∃ v, w.vectors.lookup d = some v ∧ v.size = xs.length ∧
    ∀ i, i < xs.length → w.cells.lookup (v.data + i) = xs[i]?

/-- Native code stores `y` into element `i` of the vector at `d`: `(*d)[i] = y`. -/
def vector_set (w : World α) (d : Addr) (i : Nat) (y : α) : Except Fault (World α) := do
  let v ← deref w d
  pure (poke w (v.data + i) y)

namespace stdvec_double

/-- The state after `Make(nullptr, false)` in the initial state; the handle is `3`. -/
def nullWorld : World Int :=
  match Make (World.init Int) 0 false with
  | .ok (_, w) => w
  | .error _ => World.init Int

end stdvec_double

/-- The final state of a call, its value dropped. -/
def thenState {β : Type} : Except Fault (β × World α) → Except Fault (World α)
  | .ok (_, w) => .ok w
  | .error e => .error e

/-- One call of an entry of the method table that `Init` registers. -/
inductive Call where
  | Length (x : SEXP)
  | Inspect (x : SEXP) (pre deep pvec : Int)
  | Dataptr (x : SEXP) (writeable : Bool)
  | Dataptr_or_null (x : SEXP)
  | real_Elt (x : SEXP) (i : Int)
  | Get_region (x : SEXP) (start size : Int) (out : Addr)
  deriving DecidableEq, Repr

/-- The state after one call. -/
def Call.run (w : World α) : Call → Except Fault (World α)
  | .Length x => thenState (stdvec_double.Length w x)
  | .Inspect x pre deep pvec =>
    thenState (stdvec_double.Inspect w x pre deep pvec fun _ _ _ _ => ())
  | .Dataptr x writeable => thenState (stdvec_double.Dataptr w x writeable)
  | .Dataptr_or_null x => thenState (stdvec_double.Dataptr_or_null w x)
  | .real_Elt x i => thenState (stdvec_double.real_Elt w x i)
  | .Get_region x start size out => thenState (stdvec_double.Get_region w x start size out)

/-- The state after a sequence of calls, first call first. -/
def runCalls (w : World α) : List Call → Except Fault (World α)
  | [] => .ok w
  | c :: cs => do
    let w ← c.run w
    runCalls w cs

/-- The six entries called in turn on the handle made by `doubles()`. -/
def demoCalls : List Call :=
  [.Length 3, .Inspect 3 0 0 0, .Dataptr 3 true, .Dataptr_or_null 3, .real_Elt 3 2,
    .Get_region 3 3 10 100]

/-- The state after `demoCalls` on `callerWorld`. -/
def demoCallsWorld : World Int :=
  match runCalls callerWorld demoCalls with
  | .ok w => w
  | .error _ => callerWorld

end Altrepisode

/-! ## Theorems -/

namespace Altrepisode

variable {α : Type}

/-! ### Machine arithmetic -/

theorem toU64_of_nonneg (i : Int) (h0 : 0 ≤ i) (h1 : i < 2 ^ 63) : toU64 i = i.toNat := by
  unfold toU64
  have h : i % 2 ^ 64 = i := Int.emod_eq_of_lt h0 (by omega)
  rw [h]

theorem toI64_of_lt (n : Nat) (h : n < 2 ^ 63) : toI64 n = n := by
  unfold toI64
  have h1 : n % 2 ^ 64 = n := Nat.mod_eq_of_lt (by omega)
  rw [h1, if_pos h]

theorem toI64_usub64 (n : Nat) (s : Int) (hn : n < 2 ^ 63) (h0 : 0 ≤ s) (h1 : s < 2 ^ 63) :
    toI64 (usub64 n (toU64 s)) = (n : Int) - s := by
  rw [toU64_of_nonneg s h0 h1]
  obtain ⟨m, rfl⟩ := Int.eq_ofNat_of_zero_le h0
  simp only [Int.toNat_ofNat]
  have hm : m < 2 ^ 63 := by exact_mod_cast h1
  unfold usub64 toI64
  have e1 : n % 2 ^ 64 = n := Nat.mod_eq_of_lt (by omega)
  have e2 : m % 2 ^ 64 = m := Nat.mod_eq_of_lt (by omega)
  rw [e1, e2]
  by_cases hle : m ≤ n
  · have e3 : (n + 2 ^ 64 - m) % 2 ^ 64 = n - m := by
      have : n + 2 ^ 64 - m = (n - m) + 2 ^ 64 := by omega
      rw [this, Nat.add_mod_right, Nat.mod_eq_of_lt (by omega)]
    rw [e3, Nat.mod_eq_of_lt (by omega), if_pos (by omega)]
    omega
  · have e3 : (n + 2 ^ 64 - m) % 2 ^ 64 = n + 2 ^ 64 - m := Nat.mod_eq_of_lt (by omega)
    rw [e3, e3, if_neg (by omega)]
    omega

/-! ### Reads do not see the console -/

@[simp] theorem deref_Rprintf (w : World α) (s : String) (p : Addr) :
    deref (Rprintf w s) p = deref w p := rfl

@[simp] theorem readCell_Rprintf (w : World α) (s : String) (a : Int) :
    readCell (Rprintf w s) a = readCell w a := rfl

@[simp] theorem R_altrep_data1_Rprintf (w : World α) (s : String) (x : SEXP) :
    R_altrep_data1 (Rprintf w s) x = R_altrep_data1 w x := rfl

@[simp] theorem R_ExternalPtrAddr_Rprintf (w : World α) (s : String) (x : SEXP) :
    R_ExternalPtrAddr (Rprintf w s) x = R_ExternalPtrAddr w x := rfl

@[simp] theorem Rprintf_vectors (w : World α) (s : String) :
    (Rprintf w s).vectors = w.vectors := rfl

@[simp] theorem Rprintf_cells (w : World α) (s : String) :
    (Rprintf w s).cells = w.cells := rfl

@[simp] theorem Rprintf_deletes (w : World α) (s : String) :
    (Rprintf w s).deletes = w.deletes := rfl

@[simp] theorem Rprintf_brk (w : World α) (s : String) :
    (Rprintf w s).brk = w.brk := rfl

@[simp] theorem Rprintf_objects (w : World α) (s : String) :
    (Rprintf w s).objects = w.objects := rfl

@[simp] theorem Rprintf_next (w : World α) (s : String) :
    (Rprintf w s).next = w.next := rfl

@[simp] theorem Rprintf_class_t (w : World α) (s : String) :
    (Rprintf w s).class_t = w.class_t := rfl

theorem Frame.refl (w : World α) : Frame w w := ⟨w.console, rfl⟩

theorem Frame.trans {w1 w2 w3 : World α} (h1 : Frame w1 w2) (h2 : Frame w2 w3) :
    Frame w1 w3 := by
  obtain ⟨c1, rfl⟩ := h1
  obtain ⟨c2, rfl⟩ := h2
  exact ⟨c2, rfl⟩

theorem Frame.of_Rprintf (w : World α) (s : String) : Frame w (Rprintf w s) :=
  ⟨s :: w.console, rfl⟩

theorem Frame.then_Rprintf {w w' : World α} (h : Frame w w') (s : String) :
    Frame w (Altrepisode.Rprintf w' s) :=
  h.trans (Frame.of_Rprintf w' s)

theorem Resolves.of_Frame {w w' : World α} {x : SEXP} {p : Addr} (h : Frame w w')
    (hx : Resolves w x p) : Resolves w' x p := by
  obtain ⟨c, rfl⟩ := h
  exact hx

theorem deref_ok {w : World α} {p : Addr} {v : StdVector} (hp : p ≠ 0)
    (hv : w.vectors.lookup p = some v) : deref w p = .ok v := by
  simp [deref, hp, hv]

theorem deref_ok_iff {w : World α} {p : Addr} {v : StdVector} :
    deref w p = .ok v ↔ p ≠ 0 ∧ w.vectors.lookup p = some v := by
  unfold deref
  by_cases hp : p = 0
  · simp [hp]
  · cases hv : w.vectors.lookup p <;> simp [hp]

theorem readCell_natCast (w : World α) (a : Nat) :
    readCell w (a : Int) =
      match w.cells.lookup a with
      | some x => .ok x
      | none => .error (.badRead a) := by
  have h : ¬ ((a : Int) < 0) := by omega
  simp [readCell, h]

theorem readCell_ok {w : World α} {a : Nat} {c : α} (h : w.cells.lookup a = some c) :
    readCell w (a : Int) = .ok c := by
  rw [readCell_natCast, h]

namespace stdvec_double

/-! ### Resolution of a handle, and `Make` -/

theorem Ptr_of_Resolves {w : World α} {x : SEXP} {p : Addr} (hx : Resolves w x p) :
    Ptr w x = .ok (p, Rprintf w "[DEBUG] stdvec_double::Ptr returning %p\n") := by
  obtain ⟨d1, h1, h2⟩ := hx
  simp [Ptr, h1, h2, bind, Except.bind, pure, Except.pure]

theorem Ptr_ok {w w' : World α} {x : SEXP} {p : Addr} (h : Ptr w x = .ok (p, w')) :
    Resolves w x p ∧ Frame w w' := by
  unfold Ptr at h
  cases h1 : R_altrep_data1 w x with
  | error e => simp [h1, bind, Except.bind] at h
  | ok d1 =>
    cases h2 : R_ExternalPtrAddr w d1 with
    | error e => simp [h1, h2, bind, Except.bind] at h
    | ok q =>
      simp [h1, h2, bind, Except.bind, pure, Except.pure] at h
      obtain ⟨rfl, rfl⟩ := h
      exact ⟨⟨d1, h1, h2⟩, Frame.of_Rprintf _ _⟩

theorem Get_of_Resolves {w : World α} {x : SEXP} {p : Addr}
    (hx : Resolves w x p) (hp : p ≠ 0) :
    ∃ w', Get w x = .ok (p, w') ∧ Frame w w' := by
  have hx' : Resolves (Rprintf w "[DEBUG] stdvec_double::Get called\n") x p :=
    hx.of_Frame (Frame.of_Rprintf _ _)
  refine ⟨Rprintf (Rprintf w "[DEBUG] stdvec_double::Get called\n")
    "[DEBUG] stdvec_double::Ptr returning %p\n", ?_, ?_⟩
  · simp only [Get, Ptr_of_Resolves hx', bind, Except.bind, if_neg hp, pure, Except.pure]
  · exact (Frame.of_Rprintf _ _).trans (Frame.of_Rprintf _ _)

theorem Get_of_Resolves_null {w : World α} {x : SEXP} (hx : Resolves w x 0) :
    Get w x = .ok (0, Rprintf (Rprintf (Rprintf w "[DEBUG] stdvec_double::Get called\n")
      "[DEBUG] stdvec_double::Ptr returning %p\n")
      "[DEBUG] ERROR: Get() received null pointer!\n") := by
  have hx' : Resolves (Rprintf w "[DEBUG] stdvec_double::Get called\n") x 0 :=
    hx.of_Frame (Frame.of_Rprintf _ _)
  simp only [Get, Ptr_of_Resolves hx', bind, Except.bind, if_true, pure, Except.pure]

theorem Get_ok {w w' : World α} {x : SEXP} {p : Addr} (h : Get w x = .ok (p, w')) :
    Frame w w' ∧ Resolves w x p := by
  unfold Get at h
  cases h1 : Ptr (Rprintf w "[DEBUG] stdvec_double::Get called\n") x with
  | error e => simp [h1, bind, Except.bind] at h
  | ok r =>
    obtain ⟨q, w1⟩ := r
    obtain ⟨hres, hfr⟩ := Ptr_ok h1
    have hfr1 : Frame w w1 := (Frame.of_Rprintf _ _).trans hfr
    simp only [h1, bind, Except.bind, pure, Except.pure, Except.ok.injEq, Prod.mk.injEq] at h
    obtain ⟨rfl, rfl⟩ := h
    refine ⟨?_, hres⟩
    by_cases hq : q = 0
    · rw [if_pos hq]
      exact hfr1.then_Rprintf _
    · rw [if_neg hq]
      exact hfr1

theorem deref_Frame {w w' : World α} (h : Frame w w') (p : Addr) :
    deref w' p = deref w p := by
  obtain ⟨c, rfl⟩ := h
  rfl

theorem Get_deref_of_Resolves {w : World α} {x : SEXP} {p : Addr} {v : StdVector}
    (hx : Resolves w x p) (hp : p ≠ 0) (hv : w.vectors.lookup p = some v) :
    ∃ w', Get w x = .ok (p, w') ∧ deref w' p = .ok v ∧ Frame w w' := by
  obtain ⟨w', hg, hf⟩ := Get_of_Resolves hx hp
  exact ⟨w', hg, by rw [deref_Frame hf]; exact deref_ok hp hv, hf⟩

theorem Make_spec (w : World α) (data : Addr) (owner : Bool) (h : Wrappable w data) :
    ∃ w1, Make w data owner = .ok (w.next + 1, w1) ∧
      w1.vectors = w.vectors ∧ w1.cells = w.cells ∧ w1.deletes = w.deletes ∧
      w1.brk = w.brk ∧ w1.class_t = w.class_t ∧ w1.next = w.next + 2 ∧
      w1.objects = Make_objects w data owner ++ w.objects := by
  rcases h with rfl | ⟨v, hv, hc⟩
  · cases owner <;>
      simp [Make, Make_objects, bind, Except.bind, pure, Except.pure, R_MakeExternalPtr,
        R_RegisterCFinalizerEx, R_new_altrep, Rprintf]
  · by_cases hd : data = 0
    · subst hd
      cases owner <;>
        simp [Make, Make_objects, bind, Except.bind, pure, Except.pure, R_MakeExternalPtr,
          R_RegisterCFinalizerEx, R_new_altrep, Rprintf]
    · by_cases hs : v.size = 0
      · cases owner <;>
          simp [Make, Make_objects, bind, Except.bind, pure, Except.pure, R_MakeExternalPtr,
            R_RegisterCFinalizerEx, R_new_altrep, Rprintf, deref, hd, hv, hs]
      · obtain ⟨c, hc⟩ := hc hs
        cases owner <;>
          simp [Make, Make_objects, bind, Except.bind, pure, Except.pure, R_MakeExternalPtr,
            R_RegisterCFinalizerEx, R_new_altrep, deref, readCell_ok hc, hd, hv, hs]

theorem Make_Resolves {w w1 : World α} {data : Addr} {owner : Bool}
    (ho : w1.objects = Make_objects w data owner ++ w.objects) :
    Resolves w1 (w.next + 1) data ∧ R_altrep_data1 w1 (w.next + 1) = .ok w.next ∧
      hooksOf w1 w.next = (if owner then [.stdvec_double_Finalize] else []) := by
  have hne : (w.next == w.next + 1) = false := by
    rw [beq_eq_false_iff_ne]; exact (Nat.lt_succ_self w.next).ne
  cases owner <;>
    simp [Resolves, R_altrep_data1, R_ExternalPtrAddr, hooksOf, ho, Make_objects, List.lookup,
      hne]

end stdvec_double

theorem Holds.wrappable {w : World α} {d : Addr} {xs : List α} (h : Holds w d xs) :
    stdvec_double.Wrappable w d := by
  obtain ⟨_, v, hv, hs, hc⟩ := h
  refine Or.inr ⟨v, hv, fun hne => ?_⟩
  have h0 : 0 < xs.length := by omega
  have := hc 0 h0
  rw [Nat.add_zero] at this
  exact ⟨xs[0], by rw [this]; exact List.getElem?_eq_getElem h0⟩

namespace stdvec_double

/-! ### The accessors on a handle over a live vector -/

theorem Length_of_Resolves {w : World α} {x : SEXP} {d : Addr} {v : StdVector}
    (hx : Resolves w x d) (hd : d ≠ 0) (hv : w.vectors.lookup d = some v) :
    Returns (Length w x) (toI64 v.size) := by
  obtain ⟨w', hg, hdr, _⟩ := Get_deref_of_Resolves (hx.of_Frame (Frame.of_Rprintf w _)) hd
    (show (Rprintf w "[DEBUG] stdvec_double::Length called\n").vectors.lookup d = some v from hv)
  exact ⟨_, by simp only [Length, hg, hdr, bind, Except.bind, pure, Except.pure]; rfl⟩

theorem real_Elt_of_Resolves {w : World α} {x : SEXP} {d : Addr} {v : StdVector} {i : Int}
    {c : α} (hx : Resolves w x d) (hd : d ≠ 0) (hv : w.vectors.lookup d = some v)
    (hc : w.cells.lookup (v.data + toU64 i) = some c) :
    Returns (real_Elt w x i) c := by
  obtain ⟨w', hg, hdr, hf⟩ := Get_deref_of_Resolves (hx.of_Frame (Frame.of_Rprintf w _)) hd
    (show (Rprintf w "[DEBUG] stdvec_double::real_Elt called with index %ld\n").vectors.lookup d
      = some v from hv)
  have hr : readCell w' ((v.data : Int) + (toU64 i : Int)) = .ok c := by
    obtain ⟨k, rfl⟩ := hf
    have : ((v.data : Int) + (toU64 i : Int)) = ((v.data + toU64 i : Nat) : Int) := by
      push_cast; rfl
    rw [this]
    exact readCell_ok hc
  exact ⟨_, by simp only [real_Elt, hg, hdr, hr, bind, Except.bind, pure, Except.pure]; rfl⟩

theorem Dataptr_of_Resolves {w : World α} {x : SEXP} {d : Addr} {v : StdVector}
    (hx : Resolves w x d) (hd : d ≠ 0) (hv : w.vectors.lookup d = some v) (writeable : Bool) :
    Returns (Dataptr w x writeable) v.data := by
  obtain ⟨w', hg, hdr, _⟩ := Get_deref_of_Resolves (hx.of_Frame (Frame.of_Rprintf w _)) hd
    (show (Rprintf w "[DEBUG] stdvec_double::Dataptr called (writeable=%s)\n").vectors.lookup d
      = some v from hv)
  exact ⟨_, by simp only [Dataptr, hg, hdr, bind, Except.bind, pure, Except.pure]; rfl⟩

theorem Dataptr_or_null_of_Resolves {w : World α} {x : SEXP} {d : Addr} {v : StdVector}
    (hx : Resolves w x d) (hd : d ≠ 0) (hv : w.vectors.lookup d = some v) :
    Returns (Dataptr_or_null w x) v.data := by
  obtain ⟨w', hg, hdr, _⟩ := Get_deref_of_Resolves (hx.of_Frame (Frame.of_Rprintf w _)) hd
    (show (Rprintf w "[DEBUG] stdvec_double::Dataptr_or_null called\n").vectors.lookup d
      = some v from hv)
  exact ⟨_, by simp only [Dataptr_or_null, hg, hdr, bind, Except.bind, pure, Except.pure]; rfl⟩

theorem Get_region_of_Resolves {w : World α} {x : SEXP} {d : Addr} {v : StdVector}
    (hx : Resolves w x d) (hd : d ≠ 0) (hv : w.vectors.lookup d = some v)
    (start size : Int) (out : Addr) :
    ∃ w', Get_region w x start size out =
        .ok ((if toI64 (usub64 v.size (toU64 start)) > size then size
              else toI64 (usub64 v.size (toU64 start))), w') ∧ Frame w w' := by
  obtain ⟨w', hg, hdr, hf⟩ := Get_deref_of_Resolves (hx.of_Frame (Frame.of_Rprintf w _)) hd
    (show (Rprintf w
      "[DEBUG] stdvec_double::Get_region called (start=%ld, size=%ld)\n").vectors.lookup d
      = some v from hv)
  refine ⟨_, by simp only [Get_region, hg, hdr, bind, Except.bind, pure, Except.pure]; rfl, ?_⟩
  exact ((Frame.of_Rprintf w _).trans hf).then_Rprintf _

/-- C2: on a handle over a live buffer of `n` doubles (`n` below `2^63`, as every
`std::vector<double>` is), with `0 ≤ start < n` and a requested count `k ≥ 0`,
`Get_region` returns exactly `min k (n - start)`. -/
theorem Get_region_returns_min (w : World α) (x : SEXP) (d : Addr) (v : StdVector)
    (start k : Int) (out : Addr)
    (hx : Resolves w x d) (hd : d ≠ 0) (hv : w.vectors.lookup d = some v)
    (hn : v.size < 2 ^ 63) (h0 : 0 ≤ start) (h1 : start < v.size) (_hk : 0 ≤ k) :
    Returns (Get_region w x start k out) (min k ((v.size : Int) - start)) := by
  obtain ⟨w', hg, _⟩ := Get_region_of_Resolves hx hd hv start k out
  have hs : start < 2 ^ 63 := by
    have : (v.size : Int) < 2 ^ 63 := by exact_mod_cast hn
    omega
  rw [toI64_usub64 v.size start hn h0 hs] at hg
  refine ⟨w', ?_⟩
  rw [hg]
  by_cases hlt : (v.size : Int) - start > k
  · rw [if_pos hlt, min_eq_left (le_of_lt hlt)]
  · rw [if_neg hlt, min_eq_right (not_lt.mp hlt)]

/-- C2, the scenario of the specification: on the handle made by `doubles()` (five
elements), `Get_region` with `start = 3` and a requested count of `10` returns `2`. -/
theorem Get_region_returns_min_witness :
    Returns (Get_region demoWorld 3 3 10 100) 2 :=
  Get_region_returns_min demoWorld 3 1 ⟨2, 5⟩ 3 10 100 ⟨2, rfl, rfl⟩ (by decide) rfl
    (by decide) (by decide) (by decide) (by decide)

/-- C8: for a live buffer of `n` doubles (`n` below `2^63`) and either ownership flag,
`Make` returns a handle and `Length` of that handle returns `n`. -/
theorem Length_Make (w : World α) (d : Addr) (owner : Bool) (xs : List α)
    (h : Holds w d xs) (hn : xs.length < 2 ^ 63) :
    ∃ x w1, Make w d owner = .ok (x, w1) ∧ Returns (Length w1 x) (xs.length : Int) := by
  obtain ⟨w1, hm, hvec, _, _, _, _, _, hobj⟩ := Make_spec w d owner h.wrappable
  obtain ⟨hd, v, hv, hs, _⟩ := h
  refine ⟨_, w1, hm, ?_⟩
  have hl := Length_of_Resolves (Make_Resolves hobj).1 hd (by rw [hvec]; exact hv)
  rw [hs, toI64_of_lt _ hn] at hl
  exact hl

/-- C8, the scenario of the specification: the five-element buffer that `doubles()`
builds, wrapped with ownership, has length `5`. -/
theorem Length_Make_witness :
    ∃ x w1, Make bufWorld 1 true = .ok (x, w1) ∧
      Returns (Length w1 x) (([-2, -1, 0, 1, 2] : List Int).length : Int) :=
  Length_Make bufWorld 1 true [-2, -1, 0, 1, 2]
    ⟨by decide, ⟨2, 5⟩, rfl, rfl, by decide⟩ (by decide)

/-- C7: for a live buffer of `n` doubles and either ownership flag, `Make` returns a
handle `x` such that, in every later state `w2` with the same R objects in which the
buffer holds `ys`, `real_Elt x i` returns `ys[i]` for every `0 ≤ i < ys.length`; in
particular it returns the original elements right after `Make`, and after native code
stores `y` into element `i`, it returns `y`. -/
theorem real_Elt_reads_live_buffer (w : World α) (d : Addr) (owner : Bool) (xs : List α)
    (h : Holds w d xs) (hn : xs.length < 2 ^ 63) :
    ∃ x w1, Make w d owner = .ok (x, w1) ∧
      (∀ (i : Nat) (hi : i < xs.length), Returns (real_Elt w1 x (i : Int)) xs[i]) ∧
      (∀ (i : Nat) (y : α), i < xs.length →
        ∃ w2, vector_set w1 d i y = .ok w2 ∧ Returns (real_Elt w2 x (i : Int)) y) ∧
      (∀ (w2 : World α) (ys : List α), w2.objects = w1.objects → Holds w2 d ys →
        ys.length < 2 ^ 63 →
        ∀ (i : Nat) (hi : i < ys.length), Returns (real_Elt w2 x (i : Int)) ys[i]) := by
  obtain ⟨w1, hm, hvec, hcells, _, _, _, _, hobj⟩ := Make_spec w d owner h.wrappable
  have hres := (Make_Resolves hobj).1
  have key : ∀ (w2 : World α) (ys : List α), w2.objects = w1.objects → Holds w2 d ys →
      ys.length < 2 ^ 63 →
      ∀ (i : Nat) (hi : i < ys.length), Returns (real_Elt w2 (w.next + 1) (i : Int)) ys[i] := by
    intro w2 ys ho hh hlen i hi
    obtain ⟨hd, v, hv, _, hc⟩ := hh
    have hres2 : Resolves w2 (w.next + 1) d := by
      obtain ⟨d1, h1, h2⟩ := hres
      exact ⟨d1, by simpa [R_altrep_data1, ho] using h1,
        by simpa [R_ExternalPtrAddr, ho] using h2⟩
    have hu : toU64 (i : Int) = i := by
      rw [toU64_of_nonneg _ (by omega) (by omega)]
      rfl
    refine real_Elt_of_Resolves hres2 hd hv ?_
    rw [hu, hc i hi]
    exact List.getElem?_eq_getElem hi
  refine ⟨_, w1, hm, ?_, ?_, key⟩
  · intro i hi
    refine key w1 xs rfl ?_ hn i hi
    obtain ⟨hd, v, hv, hs, hc⟩ := h
    exact ⟨hd, v, by rw [hvec]; exact hv, hs, by rw [hcells]; exact hc⟩
  · intro i y hi
    obtain ⟨hd, v, hv, hs, hc⟩ := h
    have hv1 : w1.vectors.lookup d = some v := by rw [hvec]; exact hv
    refine ⟨poke w1 (v.data + i) y, by
      simp only [vector_set, deref_ok hd hv1, bind, Except.bind, pure, Except.pure], ?_⟩
    have hu : toU64 (i : Int) = i := by
      rw [toU64_of_nonneg _ (by omega) (by omega)]
      rfl
    refine real_Elt_of_Resolves (w := poke w1 (v.data + i) y) hres hd hv1 ?_
    rw [hu]
    simp [poke, List.lookup]

/-- C7, the scenario of the specification: on the buffer `[-2, -1, 0, 1, 2]`, element `2`
reads as `0`, and reads as `7` after native code stores `7` there. -/
theorem real_Elt_reads_live_buffer_witness :
    ∃ x w1, Make bufWorld 1 false = .ok (x, w1) ∧
      Returns (real_Elt w1 x 2) (0 : Int) ∧
      ∃ w2, vector_set w1 1 2 7 = .ok w2 ∧ Returns (real_Elt w2 x 2) (7 : Int) :=
  have h := real_Elt_reads_live_buffer bufWorld 1 false [-2, -1, 0, 1, 2]
    ⟨by decide, ⟨2, 5⟩, rfl, rfl, by decide⟩ (by decide)
  match h with
  | ⟨x, w1, hm, h1, h2, _⟩ => ⟨x, w1, hm, h1 2 (by decide), h2 2 7 (by decide)⟩

/-- C9: for a non-null pointer `d` to a live vector and either ownership flag, `Make`
returns a handle and allocates no native memory (vectors, cells and the allocation
pointer are those of before); `Ptr` of the handle returns `d` itself; `Dataptr` (for
every `writeable`) and `Dataptr_or_null` return `data()` of the vector at `d`; and
`real_Elt i` returns the content of the cell `data() + i`, whenever that cell is
mapped. -/
theorem Make_zero_copy (w : World α) (d : Addr) (owner : Bool) (v : StdVector)
    (hd : d ≠ 0) (hv : w.vectors.lookup d = some v)
    (hc : v.size ≠ 0 → ∃ c, w.cells.lookup v.data = some c) :
    ∃ x w1, Make w d owner = .ok (x, w1) ∧
      w1.vectors = w.vectors ∧ w1.cells = w.cells ∧ w1.brk = w.brk ∧
      Returns (Ptr w1 x) d ∧
      (∀ writeable, Returns (Dataptr w1 x writeable) v.data) ∧
      Returns (Dataptr_or_null w1 x) v.data ∧
      (∀ (i : Nat) (c : α), i < 2 ^ 63 → w.cells.lookup (v.data + i) = some c →
        Returns (real_Elt w1 x (i : Int)) c) := by
  obtain ⟨w1, hm, hvec, hcells, _, hbrk, _, _, hobj⟩ :=
    Make_spec w d owner (Or.inr ⟨v, hv, hc⟩)
  have hres := (Make_Resolves hobj).1
  have hv1 : w1.vectors.lookup d = some v := by rw [hvec]; exact hv
  refine ⟨_, w1, hm, hvec, hcells, hbrk, ⟨_, Ptr_of_Resolves hres⟩,
    fun wr => Dataptr_of_Resolves hres hd hv1 wr, Dataptr_or_null_of_Resolves hres hd hv1, ?_⟩
  intro i c hi hcell
  have hu : toU64 (i : Int) = i := by
    rw [toU64_of_nonneg _ (by omega) (by exact_mod_cast hi)]
    rfl
  refine real_Elt_of_Resolves hres hd hv1 ?_
  rw [hu, hcells]
  exact hcell

/-- C9 on the buffer that `doubles()` builds: the vector object is at `1`, its storage
starts at `2`. -/
theorem Make_zero_copy_witness :
    ∃ x w1, Make bufWorld 1 true = .ok (x, w1) ∧
      w1.vectors = bufWorld.vectors ∧ w1.cells = bufWorld.cells ∧ w1.brk = bufWorld.brk ∧
      Returns (Ptr w1 x) 1 ∧
      (∀ writeable, Returns (Dataptr w1 x writeable) 2) ∧
      Returns (Dataptr_or_null w1 x) 2 ∧
      (∀ (i : Nat) (c : Int), i < 2 ^ 63 → bufWorld.cells.lookup (2 + i) = some c →
        Returns (real_Elt w1 x (i : Int)) c) :=
  Make_zero_copy bufWorld 1 true ⟨2, 5⟩ (by decide) rfl (fun _ => ⟨-2, rfl⟩)

theorem Length_null {w : World α} {x : SEXP} (hx : Resolves w x 0) :
    Length w x = .error .nullDeref := by
  have hg := Get_of_Resolves_null (w := Rprintf w "[DEBUG] stdvec_double::Length called\n")
    (hx.of_Frame (Frame.of_Rprintf _ _))
  simp [Length, hg, bind, Except.bind, deref]

/-- C6, as amended: on a handle whose slot resolves to the null address, `Get` does not
stop: it writes the line `ERROR: Get() received null pointer!` and returns the null
reference to its caller. No accessor built on it returns a value: `Length`, `Inspect`,
`Dataptr`, `Dataptr_or_null`, `real_Elt` and `Get_region` each go on to read through the
null reference, which is the fault `nullDeref` (a null-pointer dereference, not an abort
or error call of the binding). -/
theorem Get_null_returns_reference (w : World α) (x : SEXP) (hx : Resolves w x 0) :
    (∃ w', Get w x = .ok (0, w') ∧ Frame w w' ∧
      w'.console = "[DEBUG] ERROR: Get() received null pointer!\n" ::
        "[DEBUG] stdvec_double::Ptr returning %p\n" ::
        "[DEBUG] stdvec_double::Get called\n" :: w.console) ∧
    Length w x = .error .nullDeref ∧
    (∀ pre deep pvec f, Inspect w x pre deep pvec f = .error .nullDeref) ∧
    (∀ writeable, Dataptr w x writeable = .error .nullDeref) ∧
    Dataptr_or_null w x = .error .nullDeref ∧
    (∀ i, real_Elt w x i = .error .nullDeref) ∧
    (∀ start size out, Get_region w x start size out = .error .nullDeref) := by
  have hg : ∀ s : String, ∃ w', Get (Rprintf w s) x = .ok (0, w') ∧
      deref w' 0 = .error .nullDeref :=
    fun s => ⟨_, Get_of_Resolves_null (hx.of_Frame (Frame.of_Rprintf _ _)), rfl⟩
  refine ⟨⟨_, Get_of_Resolves_null hx, ?_, rfl⟩, Length_null hx, ?_, ?_, ?_, ?_, ?_⟩
  · exact (((Frame.of_Rprintf _ _).trans (Frame.of_Rprintf _ _)).trans (Frame.of_Rprintf _ _))
  · intro pre deep pvec f
    have hl := Length_null (w := Rprintf w "[DEBUG] stdvec_double::Inspect called\n")
      (hx.of_Frame (Frame.of_Rprintf _ _))
    simp [Inspect, hl, bind, Except.bind]
  · intro wr
    obtain ⟨w', h1, h2⟩ := hg "[DEBUG] stdvec_double::Dataptr called (writeable=%s)\n"
    simp [Dataptr, h1, h2, bind, Except.bind]
  · obtain ⟨w', h1, h2⟩ := hg "[DEBUG] stdvec_double::Dataptr_or_null called\n"
    simp [Dataptr_or_null, h1, h2, bind, Except.bind]
  · intro i
    obtain ⟨w', h1, h2⟩ := hg "[DEBUG] stdvec_double::real_Elt called with index %ld\n"
    simp [real_Elt, h1, h2, bind, Except.bind]
  · intro start size out
    obtain ⟨w', h1, h2⟩ :=
      hg "[DEBUG] stdvec_double::Get_region called (start=%ld, size=%ld)\n"
    simp [Get_region, h1, h2, bind, Except.bind]

/-- C6, as amended, on the handle that `Make(nullptr, false)` returns. -/
theorem Get_null_returns_reference_witness :
    (∃ w', Get nullWorld 3 = .ok (0, w') ∧ Frame nullWorld w' ∧
      w'.console = "[DEBUG] ERROR: Get() received null pointer!\n" ::
        "[DEBUG] stdvec_double::Ptr returning %p\n" ::
        "[DEBUG] stdvec_double::Get called\n" :: nullWorld.console) ∧
    Length nullWorld 3 = .error .nullDeref ∧
    (∀ pre deep pvec f, Inspect nullWorld 3 pre deep pvec f = .error .nullDeref) ∧
    (∀ writeable, Dataptr nullWorld 3 writeable = .error .nullDeref) ∧
    Dataptr_or_null nullWorld 3 = .error .nullDeref ∧
    (∀ i, real_Elt nullWorld 3 i = .error .nullDeref) ∧
    (∀ start size out, Get_region nullWorld 3 start size out = .error .nullDeref) :=
  Get_null_returns_reference nullWorld 3 ⟨2, rfl, rfl⟩

/-- C6 as stated fails: on the handle that `Make(nullptr, false)` returns, whose slot
holds the null address, `Get` returns to its caller, and what it returns is the null
reference; it ends in no abort or error result. -/
theorem Get_hands_back_null :
    Resolves nullWorld 3 0 ∧ value? (Get nullWorld 3) = some 0 ∧
      ¬ ∃ e, Get nullWorld 3 = .error e :=
  ⟨⟨2, rfl, rfl⟩, rfl, fun ⟨_, h⟩ => by cases h⟩

end stdvec_double

theorem Frame.symm {w w' : World α} (h : Frame w w') : Frame w' w := by
  obtain ⟨c, rfl⟩ := h
  exact ⟨w.console, rfl⟩

namespace stdvec_double

/-! ### The accessors change the console only -/

theorem Length_ok {w w' : World α} {x : SEXP} {n : Int} (h : Length w x = .ok (n, w')) :
    Frame w w' ∧ ∃ p v, Resolves w x p ∧ p ≠ 0 ∧ w.vectors.lookup p = some v ∧
      n = toI64 v.size := by
  unfold Length at h
  cases hg : Get (Rprintf w "[DEBUG] stdvec_double::Length called\n") x with
  | error e => simp [hg, bind, Except.bind] at h
  | ok r =>
    obtain ⟨p, w1⟩ := r
    obtain ⟨hf, hres⟩ := Get_ok hg
    have hf1 : Frame w w1 := (Frame.of_Rprintf w _).trans hf
    cases hd : deref w1 p with
    | error e => simp [hg, hd, bind, Except.bind] at h
    | ok v =>
      simp [hg, hd, bind, Except.bind, pure, Except.pure] at h
      obtain ⟨rfl, rfl⟩ := h
      rw [deref_Frame hf1] at hd
      obtain ⟨hp, hv⟩ := deref_ok_iff.mp hd
      exact ⟨hf1.then_Rprintf _, p, v, hres, hp, hv, rfl⟩

theorem Inspect_ok {w w' : World α} {x : SEXP} {pre deep pvec : Int}
    {f : SEXP → Int → Int → Int → Unit} {b : Bool}
    (h : Inspect w x pre deep pvec f = .ok (b, w')) : Frame w w' := by
  unfold Inspect at h
  cases hl : Length (Rprintf w "[DEBUG] stdvec_double::Inspect called\n") x with
  | error e => simp [hl, bind, Except.bind] at h
  | ok r =>
    obtain ⟨n, w1⟩ := r
    have hf1 := (Length_ok hl).1
    cases hp : Ptr w1 x with
    | error e => simp [hl, hp, bind, Except.bind] at h
    | ok r2 =>
      obtain ⟨q, w2⟩ := r2
      have hf2 := (Ptr_ok hp).2
      simp [hl, hp, bind, Except.bind, pure, Except.pure] at h
      obtain ⟨_, rfl⟩ := h
      exact (((Frame.of_Rprintf w _).trans hf1).trans hf2).then_Rprintf _

theorem Dataptr_ok {w w' : World α} {x : SEXP} {wr : Bool} {a : Addr}
    (h : Dataptr w x wr = .ok (a, w')) : Frame w w' := by
  unfold Dataptr at h
  cases hg : Get (Rprintf w "[DEBUG] stdvec_double::Dataptr called (writeable=%s)\n") x with
  | error e => simp [hg, bind, Except.bind] at h
  | ok r =>
    obtain ⟨p, w1⟩ := r
    cases hd : deref w1 p with
    | error e => simp [hg, hd, bind, Except.bind] at h
    | ok v =>
      simp [hg, hd, bind, Except.bind, pure, Except.pure] at h
      obtain ⟨_, rfl⟩ := h
      exact ((Frame.of_Rprintf w _).trans (Get_ok hg).1).then_Rprintf _

theorem Dataptr_or_null_ok {w w' : World α} {x : SEXP} {a : Addr}
    (h : Dataptr_or_null w x = .ok (a, w')) : Frame w w' := by
  unfold Dataptr_or_null at h
  cases hg : Get (Rprintf w "[DEBUG] stdvec_double::Dataptr_or_null called\n") x with
  | error e => simp [hg, bind, Except.bind] at h
  | ok r =>
    obtain ⟨p, w1⟩ := r
    cases hd : deref w1 p with
    | error e => simp [hg, hd, bind, Except.bind] at h
    | ok v =>
      simp [hg, hd, bind, Except.bind, pure, Except.pure] at h
      obtain ⟨_, rfl⟩ := h
      exact ((Frame.of_Rprintf w _).trans (Get_ok hg).1).then_Rprintf _

theorem real_Elt_ok {w w' : World α} {x : SEXP} {i : Int} {c : α}
    (h : real_Elt w x i = .ok (c, w')) : Frame w w' := by
  unfold real_Elt at h
  cases hg : Get (Rprintf w "[DEBUG] stdvec_double::real_Elt called with index %ld\n") x with
  | error e => simp [hg, bind, Except.bind] at h
  | ok r =>
    obtain ⟨p, w1⟩ := r
    cases hd : deref w1 p with
    | error e => simp [hg, hd, bind, Except.bind] at h
    | ok v =>
      cases hr : readCell w1 ((v.data : Int) + (toU64 i : Int)) with
      | error e => simp [hg, hd, hr, bind, Except.bind] at h
      | ok c1 =>
        simp [hg, hd, hr, bind, Except.bind, pure, Except.pure] at h
        obtain ⟨_, rfl⟩ := h
        exact ((Frame.of_Rprintf w _).trans (Get_ok hg).1).then_Rprintf _

theorem Get_region_ok {w w' : World α} {x : SEXP} {start size : Int} {out : Addr} {r : Int}
    (h : Get_region w x start size out = .ok (r, w')) : Frame w w' := by
  unfold Get_region at h
  cases hg : Get (Rprintf w
      "[DEBUG] stdvec_double::Get_region called (start=%ld, size=%ld)\n") x with
  | error e => simp [hg, bind, Except.bind] at h
  | ok r =>
    obtain ⟨p, w1⟩ := r
    cases hd : deref w1 p with
    | error e => simp [hg, hd, bind, Except.bind] at h
    | ok v =>
      simp [hg, hd, bind, Except.bind, pure, Except.pure] at h
      obtain ⟨_, rfl⟩ := h
      exact ((Frame.of_Rprintf w _).trans (Get_ok hg).1).then_Rprintf _

theorem Length_value_of_Frame {w w' w1 : World α} {x : SEXP} {n : Int} (hf : Frame w w')
    (h : Length w x = .ok (n, w1)) : value? (Length w' x) = some n := by
  obtain ⟨_, p, v, hres, hp, hv, rfl⟩ := Length_ok h
  have hv' : w'.vectors.lookup p = some v := by
    obtain ⟨c, rfl⟩ := hf
    exact hv
  obtain ⟨w2, h2⟩ := Length_of_Resolves (hres.of_Frame hf) hp hv'
  rw [h2]
  rfl

theorem Length_value_Frame {w w' : World α} (hf : Frame w w') (x : SEXP) :
    value? (Length w' x) = value? (Length w x) := by
  cases h : Length w x with
  | ok r =>
    obtain ⟨n, w1⟩ := r
    rw [Length_value_of_Frame hf h]
    rfl
  | error e =>
    cases h' : Length w' x with
    | ok r =>
      obtain ⟨n, w1⟩ := r
      have := Length_value_of_Frame hf.symm h'
      rw [h] at this
      exact absurd this (by simp [value?])
    | error e' => rfl

end stdvec_double

theorem Call.run_Frame {w w' : World α} {c : Call} (h : c.run w = .ok w') : Frame w w' := by
  cases c with
  | Length x =>
    simp only [Call.run] at h
    cases hr : stdvec_double.Length w x with
    | error e => simp [hr, thenState] at h
    | ok r =>
      obtain ⟨n, w1⟩ := r
      simp [hr, thenState] at h
      subst h
      exact (stdvec_double.Length_ok hr).1
  | Inspect x pre deep pvec =>
    simp only [Call.run] at h
    cases hr : stdvec_double.Inspect w x pre deep pvec fun _ _ _ _ => () with
    | error e => simp [hr, thenState] at h
    | ok r =>
      obtain ⟨n, w1⟩ := r
      simp [hr, thenState] at h
      subst h
      exact stdvec_double.Inspect_ok hr
  | Dataptr x wr =>
    simp only [Call.run] at h
    cases hr : stdvec_double.Dataptr w x wr with
    | error e => simp [hr, thenState] at h
    | ok r =>
      obtain ⟨n, w1⟩ := r
      simp [hr, thenState] at h
      subst h
      exact stdvec_double.Dataptr_ok hr
  | Dataptr_or_null x =>
    simp only [Call.run] at h
    cases hr : stdvec_double.Dataptr_or_null w x with
    | error e => simp [hr, thenState] at h
    | ok r =>
      obtain ⟨n, w1⟩ := r
      simp [hr, thenState] at h
      subst h
      exact stdvec_double.Dataptr_or_null_ok hr
  | real_Elt x i =>
    simp only [Call.run] at h
    cases hr : stdvec_double.real_Elt w x i with
    | error e => simp [hr, thenState] at h
    | ok r =>
      obtain ⟨n, w1⟩ := r
      simp [hr, thenState] at h
      subst h
      exact stdvec_double.real_Elt_ok hr
  | Get_region x start size out =>
    simp only [Call.run] at h
    cases hr : stdvec_double.Get_region w x start size out with
    | error e => simp [hr, thenState] at h
    | ok r =>
      obtain ⟨n, w1⟩ := r
      simp [hr, thenState] at h
      subst h
      exact stdvec_double.Get_region_ok hr

theorem runCalls_Frame {cs : List Call} : ∀ {w w' : World α}, runCalls w cs = .ok w' →
    Frame w w' := by
  induction cs with
  | nil =>
    intro w w' h
    simp [runCalls] at h
    subst h
    exact Frame.refl w
  | cons c cs ih =>
    intro w w' h
    cases hc : c.run w with
    | error e => simp [runCalls, hc, bind, Except.bind] at h
    | ok w1 =>
      simp [runCalls, hc, bind, Except.bind] at h
      exact (Call.run_Frame hc).trans (ih h)

/-- C10: after any sequence of calls of `Length`, `Inspect`, `Dataptr`,
`Dataptr_or_null`, `real_Elt` and `Get_region` (on any handles and arguments) that all
return, the live vectors (addresses, `data()` and `size()`), the cells, the R objects
and the list of deletions are those of before, every handle resolves to the address it
resolved to before, and `Length` reports on every handle what it reported before. Only
the console has grown. -/
theorem accessors_read_only (w w' : World α) (cs : List Call) (h : runCalls w cs = .ok w') :
    w'.vectors = w.vectors ∧ w'.cells = w.cells ∧ w'.objects = w.objects ∧
    w'.deletes = w.deletes ∧ w'.brk = w.brk ∧
    (∀ x p, Resolves w' x p ↔ Resolves w x p) ∧
    (∀ x, value? (stdvec_double.Length w' x) = value? (stdvec_double.Length w x)) := by
  have hf := runCalls_Frame h
  refine ⟨?_, ?_, ?_, ?_, ?_, ?_, stdvec_double.Length_value_Frame hf⟩
  · obtain ⟨c, rfl⟩ := hf; rfl
  · obtain ⟨c, rfl⟩ := hf; rfl
  · obtain ⟨c, rfl⟩ := hf; rfl
  · obtain ⟨c, rfl⟩ := hf; rfl
  · obtain ⟨c, rfl⟩ := hf; rfl
  · intro x p
    exact ⟨fun hx => hx.of_Frame hf.symm, fun hx => hx.of_Frame hf⟩

/-- C10 on the handle made by `doubles()`: the six entries called in turn all return and
leave vectors, cells, objects and the reported length as they were. -/
theorem accessors_read_only_witness :
    demoCallsWorld.vectors = callerWorld.vectors ∧
    demoCallsWorld.cells = callerWorld.cells ∧
    demoCallsWorld.objects = callerWorld.objects ∧
    demoCallsWorld.deletes = callerWorld.deletes ∧ demoCallsWorld.brk = callerWorld.brk ∧
    (∀ x p, Resolves demoCallsWorld x p ↔ Resolves callerWorld x p) ∧
    (∀ x, value? (stdvec_double.Length demoCallsWorld x) =
      value? (stdvec_double.Length callerWorld x)) :=
  accessors_read_only callerWorld demoCallsWorld demoCalls rfl

theorem lookup_filter_ne (p : Addr) (l : List (Addr × StdVector)) :
    (l.filter fun e => e.1 != p).lookup p = none := by
  induction l with
  | nil => rfl
  | cons e l ih =>
    obtain ⟨a, v⟩ := e
    by_cases h : a = p
    · subst h
      simpa [List.filter] using ih
    · have h1 : (a != p) = true := by simpa using h
      have h2 : (p == a) = false := by
        rw [beq_eq_false_iff_ne]; exact fun e => h e.symm
      simp only [List.filter, h1, List.lookup, h2]
      exact ih

theorem delete_dead {w : World α} {p : Addr} (h : w.vectors.lookup p = none) :
    delete w p = .error (.doubleFree p) := by
  simp [delete, h]

namespace stdvec_double

/-! ### The finalizer -/

theorem Finalize_null {w : World α} {xp : SEXP} (h : R_ExternalPtrAddr w xp = .ok 0) :
    ∃ w1, Finalize w xp = .ok w1 ∧ Frame w w1 := by
  refine ⟨Rprintf (Rprintf w "[DEBUG] stdvec_double::Finalize called for vector %p\n")
    "[DEBUG] WARNING: Finalizer called with null pointer\n", ?_, ?_⟩
  · simp [Finalize, h, bind, Except.bind, pure, Except.pure]
  · exact (Frame.of_Rprintf _ _).trans (Frame.of_Rprintf _ _)

theorem Finalize_live {w : World α} {xp : SEXP} {p : Addr} {v : StdVector}
    (h : R_ExternalPtrAddr w xp = .ok p) (hp : p ≠ 0) (hv : w.vectors.lookup p = some v) :
    ∃ w1, Finalize w xp = .ok w1 ∧ w1.deletes = p :: w.deletes ∧
      w1.vectors.lookup p = none ∧ w1.objects = w.objects := by
  refine ⟨release (Rprintf (Rprintf w
    "[DEBUG] stdvec_double::Finalize called for vector %p\n")
    "[DEBUG] Deleting vector of size %zu\n") p v, ?_, ?_, ?_, ?_⟩
  · simp only [Finalize, h, bind, Except.bind, if_pos hp, deref_Rprintf, deref_ok hp hv,
      delete, Rprintf_vectors, hv]
  · rfl
  · exact lookup_filter_ne p w.vectors
  · rfl

theorem Finalize_dead {w : World α} {xp : SEXP} {p : Addr}
    (h : R_ExternalPtrAddr w xp = .ok p) (hp : p ≠ 0) (hv : w.vectors.lookup p = none) :
    Finalize w xp = .error (.danglingDeref p) := by
  simp [Finalize, h, bind, Except.bind, hp, deref, hv]

/-- C4, as amended: `Finalize` never clears the address held by the external pointer. On
a null address it is a no-op on memory and R heap. On the address `p` of a live vector
it deletes `p`, the external pointer still holds `p` afterwards, and a second run on the
same external pointer is not a no-op: it reads through the dead `p` and stops with a
fault, and the `delete` it goes on to would be a double free. -/
theorem Finalize_runs (w : World α) (xp : SEXP) (p : Addr)
    (h : R_ExternalPtrAddr w xp = .ok p) :
    (p = 0 → ∃ w1, Finalize w xp = .ok w1 ∧ Frame w w1) ∧
    (p ≠ 0 → ∀ v, w.vectors.lookup p = some v →
      ∃ w1, Finalize w xp = .ok w1 ∧ w1.deletes = p :: w.deletes ∧
        w1.vectors.lookup p = none ∧ R_ExternalPtrAddr w1 xp = .ok p ∧
        Finalize w1 xp = .error (.danglingDeref p) ∧
        delete w1 p = .error (.doubleFree p)) := by
  constructor
  · intro hp
    subst hp
    exact Finalize_null h
  · intro hp v hv
    obtain ⟨w1, h1, hdel, hdead, hobj⟩ := Finalize_live h hp hv
    have h' : R_ExternalPtrAddr w1 xp = .ok p := by
      simpa [R_ExternalPtrAddr, hobj] using h
    exact ⟨w1, h1, hdel, hdead, h', Finalize_dead h' hp hdead, delete_dead hdead⟩

/-- C4, as amended, on the owned handle made by `doubles()`: its external pointer is `2`
and holds the address `1`. -/
theorem Finalize_runs_witness :
    (1 = 0 → ∃ w1, Finalize demoWorld 2 = .ok w1 ∧ Frame demoWorld w1) ∧
    (1 ≠ 0 → ∀ v, demoWorld.vectors.lookup 1 = some v →
      ∃ w1, Finalize demoWorld 2 = .ok w1 ∧ w1.deletes = 1 :: demoWorld.deletes ∧
        w1.vectors.lookup 1 = none ∧ R_ExternalPtrAddr w1 2 = .ok 1 ∧
        Finalize w1 2 = .error (.danglingDeref 1) ∧
        delete w1 1 = .error (.doubleFree 1)) :=
  Finalize_runs demoWorld 2 1 rfl

/-- C4 as stated fails: on the owned handle made by `doubles()`, the first run of
`Finalize` deletes the vector at `1` and leaves `1` in the external pointer; the second
run on the same external pointer does not return at all, so it is not a no-op. -/
theorem Finalize_twice_faults :
    ∃ w1, Finalize demoWorld 2 = .ok w1 ∧ w1.deletes = [1] ∧
      R_ExternalPtrAddr w1 2 = .ok 1 ∧
      Finalize w1 2 = .error (.danglingDeref 1) ∧
      ¬ ∃ w2, Finalize w1 2 = .ok w2 ∧ Frame w1 w2 :=
  ⟨_, rfl, rfl, rfl, rfl, fun ⟨_, h, _⟩ => by cases h⟩

end stdvec_double

theorem doubles_returns : doubles (World.init Int) = .ok (3, demoWorld) := rfl

theorem Make_null_returns :
    stdvec_double.Make (World.init Int) 0 false = .ok (3, stdvec_double.nullWorld) := rfl

theorem runCalls_demo : runCalls callerWorld demoCalls = .ok demoCallsWorld := rfl

/-! ### Collection -/

namespace stdvec_double

theorem Get_region_past_end (w : World α) (x : SEXP) (d : Addr) (v : StdVector)
    (start k : Int) (out : Addr)
    (hx : Resolves w x d) (hd : d ≠ 0) (hv : w.vectors.lookup d = some v)
    (hn : v.size < 2 ^ 63) (h0 : (v.size : Int) ≤ start) (h1 : start < 2 ^ 63) (hk : 0 ≤ k) :
    Returns (Get_region w x start k out) ((v.size : Int) - start) := by
  obtain ⟨w', hg, _⟩ := Get_region_of_Resolves hx hd hv start k out
  rw [toI64_usub64 v.size start hn (by omega) h1] at hg
  refine ⟨w', ?_⟩
  rw [hg, if_neg (by omega)]

/-- C1 fails on the code: on the handle made by `doubles()` (buffer `[-2, -1, 0, 1, 2]`)
with `start = 3`, a requested count of `10` and the caller buffer at `100` (ten doubles,
all `9`), `Get_region` returns `2` and the caller buffer still begins with `9, 9`, while
the source elements `3` and `4` (cells `5` and `6`) are `1` and `2`. -/
theorem Get_region_leaves_out_untouched :
    ∃ w', Get_region callerWorld 3 3 10 100 = .ok (2, w') ∧
      w'.cells.lookup 100 = some 9 ∧ w'.cells.lookup 101 = some 9 ∧
      w'.cells.lookup 5 = some 1 ∧ w'.cells.lookup 6 = some 2 ∧
      w'.cells = callerWorld.cells :=
  ⟨_, rfl, rfl, rfl, rfl, rfl, rfl⟩

/-- C3 fails on the code: on the handle made by `doubles()` (five elements) with
`start = 6` and a requested count of `10`, `Get_region` returns `-1`, not `0`; with
`start = 5` it returns `0`. -/
theorem Get_region_past_end_negative :
    value? (Get_region callerWorld 3 6 10 100) = some (-1) ∧
    value? (Get_region callerWorld 3 5 10 100) = some 0 :=
  ⟨rfl, rfl⟩

end stdvec_double

end Altrepisode
